import Mathlib

/-!
Verification of the superstream producer-interceptor core of
`confluent-kafka-python` (files `superstream/producer_interceptor.py` and
`superstream/utils.py`), as a shallow embedding in Lean 4.

Python runtime values that can flow through `produce(*args, **kwargs)` are
embedded as `PyVal`; Python dicts are embedded as association lists with
last-binding-wins lookup (matching dict-literal construction by successive
assignment); the external `Superstream` connection object is embedded as the
explicit state record `Conn`.
-/

set_option maxRecDepth 4000

/-- Embedding of the Python runtime values that appear in producer calls:
`None`, booleans, ints, strings, bytes, tuples used as header pairs,
lists, dicts with string keys, and (opaque) callables.  `wrappedCallback o`
stands for the `updated_on_delivery_cb` closure wrapping the original
callback `o`. -/
inductive PyVal where
  | none
  | bool (b : Bool)
  | int (n : Int)
  | str (s : String)
  | bytes (bs : List Nat)
  | pair (k : String) (v : PyVal)
  | list (xs : List PyVal)
  | dict (kvs : List (String × PyVal))
  | callback (id : Nat)
  | wrappedCallback (orig : PyVal)

mutual

/-- Structural equality on embedded Python values (models Python `==` on the
value shapes that occur here). -/
def pyBeq : PyVal → PyVal → Bool
  | PyVal.none, PyVal.none => true
  | PyVal.bool a, PyVal.bool b => a == b
  | PyVal.int a, PyVal.int b => a == b
  | PyVal.str a, PyVal.str b => a == b
  | PyVal.bytes a, PyVal.bytes b => a == b
  | PyVal.pair k a, PyVal.pair k2 b => k == k2 && pyBeq a b
  | PyVal.list xs, PyVal.list ys => pyBeqList xs ys
  | PyVal.dict xs, PyVal.dict ys => pyBeqKvs xs ys
  | PyVal.callback a, PyVal.callback b => a == b
  | PyVal.wrappedCallback a, PyVal.wrappedCallback b => pyBeq a b
  | _, _ => false

def pyBeqList : List PyVal → List PyVal → Bool
  | [], [] => true
  | x :: xs, y :: ys => pyBeq x y && pyBeqList xs ys
  | _, _ => false

def pyBeqKvs : List (String × PyVal) → List (String × PyVal) → Bool
  | [], [] => true
  | (k, v) :: xs, (k2, w) :: ys => k == k2 && pyBeq v w && pyBeqKvs xs ys
  | _, _ => false

end

/-- A Python dict with string keys, embedded as an association list.
Lookups take the last binding, matching construction of a dict by
successive `d[k] = v` assignments (and dict literals with repeated keys). -/
abbrev PyDict := List (String × PyVal)

/-- Dict lookup (`d.get(k)` / `d[k]`): last binding for `k`, if any. -/
def dictGet (d : PyDict) (k : String) : Option PyVal :=
  d.foldl (fun acc p => if p.1 == k then some p.2 else acc) Option.none

/-- Dict membership test (`k in d`). -/
def dictContains (d : PyDict) (k : String) : Bool :=
  (dictGet d k).isSome

/-- Dict assignment `d[k] = v`: rebinds `k` in place when present,
otherwise appends a new entry (Python dicts preserve insertion order). -/
def dictSet (d : PyDict) (k : String) (v : PyVal) : PyDict :=
  if (dictGet d k).isSome then d.map (fun p => if p.1 == k then (k, v) else p)
  else d ++ [(k, v)]

/-- Python `d.update(other)`: assign every binding of `other` into `d`,
in order; new keys override old ones on conflict. -/
def dictUpdate (d other : PyDict) : PyDict :=
  other.foldl (fun acc p => dictSet acc p.1 p.2) d

/-- Python `list(d.items())` as embedded header tuples. -/
def dictItems (d : PyDict) : List PyVal :=
  d.map (fun p => PyVal.pair p.1 p.2)

/-- UTF-8 encoding of a single character (Python `str.encode("utf-8")`,
per code point). -/
def utf8EncodeChar (c : Char) : List Nat :=
  let n := c.toNat
  if n < 128 then [n]
  else if n < 2048 then [192 + n / 64, 128 + n % 64]
  else if n < 65536 then [224 + n / 4096, 128 + (n / 64) % 64, 128 + n % 64]
  else [240 + n / 262144, 128 + (n / 4096) % 64, 128 + (n / 64) % 64, 128 + n % 64]

/-- UTF-8 encoding of a string (Python `str.encode("utf-8")`), as a byte
sequence of `Nat`s in the range 0..255. -/
def utf8Encode (s : String) : List Nat :=
  s.data.flatMap utf8EncodeChar

/-! ### `json.dumps` / `json.loads` (Python stdlib, external collaborators)

`_try_convert_to_json` in `utils.py` calls the Python standard library's
`json.dumps` and `json.loads`.  These are external to the repository and are
modelled here: `pyJsonDumps` produces the canonical JSON text `json.dumps`
produces with its default options (separators `", "` and `": "`,
`ensure_ascii=True`), returning `Option.none` where `json.dumps` raises
`TypeError` (non-serializable values such as `bytes` or callables);
`jsonLoadsOk` decides whether `json.loads` accepts a string. -/

/-- Lower-case hexadecimal digit. -/
def hexDigit (n : Nat) : Char :=
  if n < 10 then Char.ofNat (48 + n) else Char.ofNat (87 + n)

/-- Four-digit lower-case hexadecimal rendering, as in JSON `\uXXXX` escapes. -/
def hex4 (n : Nat) : String :=
  String.mk [hexDigit (n / 4096 % 16), hexDigit (n / 256 % 16),
             hexDigit (n / 16 % 16), hexDigit (n % 16)]

/-- Escaping of one character in a JSON string literal, following
`json.dumps` with `ensure_ascii=True` (ASCII printables pass through,
everything else is escaped, astral code points as surrogate pairs). -/
def jsonEscapeChar (c : Char) : String :=
  if c = '"' then "\\\""
  else if c = '\\' then "\\\\"
  else if c = '\n' then "\\n"
  else if c = '\r' then "\\r"
  else if c = '\t' then "\\t"
  else if c.toNat = 8 then "\\b"
  else if c.toNat = 12 then "\\f"
  else if c.toNat < 32 || c.toNat > 126 then
    if c.toNat < 65536 then "\\u" ++ hex4 c.toNat
    else
      let m := c.toNat - 65536
      "\\u" ++ hex4 (55296 + m / 1024) ++ "\\u" ++ hex4 (56320 + m % 1024)
  else String.mk [c]

/-- JSON string literal for `s` (quotes plus escaped body). -/
def jsonQuote (s : String) : String :=
  "\"" ++ s.data.foldl (fun acc c => acc ++ jsonEscapeChar c) "" ++ "\""

/-- Fuelled body of `pyJsonDumps`. -/
def pyJsonDumpsF : Nat → PyVal → Option String
  | 0, _ => Option.none
  | _ + 1, PyVal.none => some "null"
  | _ + 1, PyVal.bool true => some "true"
  | _ + 1, PyVal.bool false => some "false"
  | _ + 1, PyVal.int n => some (toString n)
  | _ + 1, PyVal.str s => some (jsonQuote s)
  | fuel + 1, PyVal.pair k v =>
      (pyJsonDumpsF fuel v).map (fun w => "[" ++ jsonQuote k ++ ", " ++ w ++ "]")
  | fuel + 1, PyVal.list xs =>
      (xs.mapM (pyJsonDumpsF fuel)).map
        (fun parts => "[" ++ String.intercalate ", " parts ++ "]")
  | fuel + 1, PyVal.dict kvs =>
      (kvs.mapM (fun p => (pyJsonDumpsF fuel p.2).map
          (fun w => jsonQuote p.1 ++ ": " ++ w))).map
        (fun parts => "\x7b" ++ String.intercalate ", " parts ++ "\x7d")
  | _ + 1, PyVal.bytes _ => Option.none
  | _ + 1, PyVal.callback _ => Option.none
  | _ + 1, PyVal.wrappedCallback _ => Option.none

mutual

/-- Nesting depth of an embedded Python value (fuel bound for `pyJsonDumpsF`). -/
def pyDepth : PyVal → Nat
  | PyVal.pair _ v => pyDepth v + 1
  | PyVal.list xs => pyDepthList xs + 1
  | PyVal.dict kvs => pyDepthKvs kvs + 1
  | PyVal.wrappedCallback o => pyDepth o + 1
  | _ => 1

def pyDepthList : List PyVal → Nat
  | [] => 0
  | x :: xs => max (pyDepth x) (pyDepthList xs)

def pyDepthKvs : List (String × PyVal) → Nat
  | [] => 0
  | (_, v) :: xs => max (pyDepth v) (pyDepthKvs xs)

end

/-- Models `json.dumps(v)`: canonical JSON text, or `Option.none` where
Python raises `TypeError` on a non-serializable value. -/
def pyJsonDumps (v : PyVal) : Option String :=
  pyJsonDumpsF (pyDepth v) v

/-- Consume leading JSON whitespace. -/
def skipWs : List Char → List Char
  | c :: cs => if c = ' ' || c = '\t' || c = '\n' || c = '\r' then skipWs cs else c :: cs
  | [] => []

/-- Match an exact literal tail (used for `null`, `true`, `false`). -/
def chompLit : List Char → List Char → Option (List Char)
  | [], cs => some cs
  | l :: ls, c :: cs => if c = l then chompLit ls cs else Option.none
  | _ :: _, [] => Option.none

/-- Consume zero or more decimal digits. -/
def digitsRest : List Char → List Char
  | c :: r => if c.isDigit then digitsRest r else c :: r
  | [] => []

/-- Hexadecimal digit test (as in JSON `\uXXXX` escapes). -/
def isHexDigitCh (c : Char) : Bool :=
  c.isDigit || (97 ≤ c.toNat && c.toNat ≤ 102) || (65 ≤ c.toNat && c.toNat ≤ 70)

/-- Consume a JSON string body after the opening quote. -/
def strRest : List Char → Option (List Char)
  | [] => Option.none
  | '"' :: r => some r
  | '\\' :: e :: r =>
    if e = 'u' then
      match r with
      | a :: b :: c :: d :: r2 =>
        if isHexDigitCh a && isHexDigitCh b && isHexDigitCh c && isHexDigitCh d
        then strRest r2 else Option.none
      | _ => Option.none
    else if ['"', '\\', '/', 'b', 'f', 'n', 'r', 't'].contains e then strRest r
    else Option.none
  | c :: r => if c.toNat < 32 then Option.none else strRest r

/-- Consume the exponent part of a JSON number, if present. -/
def numExp : List Char → Option (List Char)
  | 'e' :: r | 'E' :: r =>
    let r2 := match r with
      | '+' :: r2 => r2
      | '-' :: r2 => r2
      | _ => r
    (match r2 with
     | c :: r3 => if c.isDigit then some (digitsRest r3) else Option.none
     | [] => Option.none)
  | cs => some cs

/-- Consume the fractional part of a JSON number, if present. -/
def numFrac : List Char → Option (List Char)
  | '.' :: r =>
    (match r with
     | c :: r2 => if c.isDigit then numExp (digitsRest r2) else Option.none
     | [] => Option.none)
  | cs => numExp cs

/-- Consume a JSON number. -/
def numRest (cs : List Char) : Option (List Char) :=
  let cs2 := match cs with
    | '-' :: r => r
    | _ => cs
  match cs2 with
  | '0' :: r => numFrac r
  | c :: r => if c.isDigit then numFrac (digitsRest r) else Option.none
  | [] => Option.none

mutual

/-- Consume one JSON value (fuelled recursive-descent acceptance check). -/
def jsonVal : Nat → List Char → Option (List Char)
  | 0, _ => Option.none
  | fuel + 1, cs =>
    match skipWs cs with
    | [] => Option.none
    | c :: rest =>
      if c = 'n' then chompLit ['u', 'l', 'l'] rest
      else if c = 't' then chompLit ['r', 'u', 'e'] rest
      else if c = 'f' then chompLit ['a', 'l', 's', 'e'] rest
      else if c = '"' then strRest rest
      else if c = '[' then
        match skipWs rest with
        | ']' :: r => some r
        | cs2 => arrItems fuel cs2
      else if c = '\x7b' then
        match skipWs rest with
        | '\x7d' :: r => some r
        | cs2 => objItems fuel cs2
      else numRest (c :: rest)

/-- Consume the remaining comma-separated items of a JSON array. -/
def arrItems : Nat → List Char → Option (List Char)
  | 0, _ => Option.none
  | fuel + 1, cs =>
    match jsonVal fuel cs with
    | Option.none => Option.none
    | some rest =>
      match skipWs rest with
      | ',' :: r => arrItems fuel r
      | ']' :: r => some r
      | _ => Option.none

/-- Consume the remaining comma-separated members of a JSON object. -/
def objItems : Nat → List Char → Option (List Char)
  | 0, _ => Option.none
  | fuel + 1, cs =>
    match skipWs cs with
    | '"' :: r =>
      (match strRest r with
       | Option.none => Option.none
       | some rest =>
         match skipWs rest with
         | ':' :: r2 =>
           (match jsonVal fuel r2 with
            | Option.none => Option.none
            | some rest2 =>
              match skipWs rest2 with
              | ',' :: r3 => objItems fuel r3
              | '\x7d' :: r3 => some r3
              | _ => Option.none)
         | _ => Option.none)
    | _ => Option.none

end

/-- Models `json.loads(s)` acceptance: whether the string parses as one
JSON value with only trailing whitespace. -/
def jsonLoadsOk (s : String) : Bool :=
  match jsonVal (2 * s.length + 4) s.data with
  | some rest => (skipWs rest).isEmpty
  | Option.none => false

/-- From `src/src/confluent_kafka/superstream/utils.py`, lines 23-35
(`_try_convert_to_json`): a `str` input is returned unchanged when
`json.loads` accepts it; any other input is passed to `json.dumps`;
every exception yields `None`. -/
def tryConvertToJson (v : PyVal) : Option String :=
  match v with
  | PyVal.str s => if jsonLoadsOk s then some s else Option.none
  | _ => pyJsonDumps v

example : tryConvertToJson (PyVal.dict [("id", PyVal.int 1)]) = some "\x7b\"id\": 1\x7d" := by rfl
example : tryConvertToJson (PyVal.str "not json \x7b\x7b\x7b") = Option.none := by rfl
example : tryConvertToJson (PyVal.str "[1, 2]") = some "[1, 2]" := by rfl
example : tryConvertToJson (PyVal.bytes [0]) = Option.none := by rfl
example : utf8Encode "\x7b\"id\": 1\x7d" = [123, 34, 105, 100, 34, 58, 32, 49, 125] := by rfl

/-! ### The Connection (`Superstream`) state

The interceptor manipulates a `Superstream` connection object obtained from
its configuration.  The connection class itself lives in the repository's
`core` module (not present under `src/`); its state and the operations the
interceptor calls are modelled from the spec (sections 3, 4.3, 6).  Effects
are made observable by explicit logs: `learnLog` records the byte sequences
submitted as learning messages, `regRequests` counts issued
schema-registration requests, `errors` records strings reported to the
error sink. -/

structure Conn where
  superstream_ready : Bool
  topic_partitions : List (PyVal × List PyVal)
  learning_factor_counter : Int
  learning_factor : Int
  learning_request_sent : Bool
  errors : List String
  learnLog : List (List Nat)
  regRequests : Nat

/-- Modelled from the spec: `Superstream.update_topic_partitions(topic,
partition)` (core module, not under `src/`): adds `partition` to the set of
observed partitions for `topic`; idempotent, entries are only ever added
(spec sections 3 and 4.4). -/
def updateTopicPartitions (c : Conn) (topic partition : PyVal) : Conn :=
  match c.topic_partitions.foldl
      (fun acc p => if pyBeq p.1 topic then some p.2 else acc) Option.none with
  | Option.none =>
    { c with topic_partitions := c.topic_partitions ++ [(topic, [partition])] }
  | some parts =>
    if parts.any (fun q => pyBeq q partition) then c
    else
      let tp := c.topic_partitions.map
        (fun p => if pyBeq p.1 topic then (p.1, p.2 ++ [partition]) else p)
      { c with topic_partitions := tp }

/-- Modelled from the spec: `Superstream.send_learning_message(bytes)`
(core module, not under `src/`): submits the byte sequence to the
asynchronous learning-submission operation (spec section 4.3 step 2).
The submission is recorded in `learnLog`. -/
def sendLearningMessage (c : Conn) (msg : List Nat) : Conn :=
  { c with learnLog := c.learnLog ++ [msg] }

/-- Modelled from the spec: `Superstream.send_register_schema_req()`
(core module, not under `src/`): issues the one-time schema-registration
request and sets the `learning_request_sent` flag immediately
(spec section 4.3 step 3). -/
def sendRegisterSchemaReq (c : Conn) : Conn :=
  { c with regRequests := c.regRequests + 1, learning_request_sent := true }

/-- Modelled from the spec: `Superstream.handle_error(msg)` (core module,
not under `src/`): reports a descriptive string to the connection's error
sink (spec sections 4.3 step 4 and 6). -/
def handleError (c : Conn) (m : String) : Conn :=
  { c with errors := c.errors ++ [m] }

/-- From `producer_interceptor.py`, lines 120-157
(`SuperstreamProducerInterceptor._serialize`).  The disabled
`if False:` proto-encoding branch of the source is skipped, exactly as at
runtime.  `learnExc` / `regExc` model whether the external
`asyncio.run(superstream.send_learning_message(...))` /
`asyncio.run(superstream.send_register_schema_req())` call raises, and
with which exception text; the source's `try`/`except` converts either
into a `handle_error` report.  Returns `(byte_msg, headers, connection)`. -/
def serializeStep (c : Conn) (jsonMsg : String) (learnExc regExc : Option String) :
    List Nat × PyDict × Conn :=
  let byteMsg := utf8Encode jsonMsg
  let headers : PyDict := []
  let c2 :=
    if c.learning_factor_counter ≤ c.learning_factor then
      match learnExc with
      | Option.none =>
        let c3 := sendLearningMessage c byteMsg
        { c3 with learning_factor_counter := c3.learning_factor_counter + 1 }
      | some e => handleError c ("error sending learning message: " ++ e)
    else if !c.learning_request_sent then
      match regExc with
      | Option.none => sendRegisterSchemaReq c
      | some e => handleError c ("error sending learning message: " ++ e)
    else c
  (byteMsg, headers, c2)

/-- A sequence of `_serialize` calls against the same connection, each with
its message text and its exception oracle for the two external calls. -/
def runSerializeSeq (c : Conn) : List (String × Option String × Option String) → Conn
  | [] => c
  | (m, le, re) :: rest => runSerializeSeq (serializeStep c m le re).2.2 rest

/-! ### The `produce` call adapter -/

/-- Python exceptions that `produce` can raise in the embedded fragment. -/
inductive PyErr where
  | indexError
  | typeError
deriving DecidableEq

/-- The outcome of a successful `produce` call: the positional and named
arguments the underlying producer handler is invoked with, and the
connection state afterwards (`Option.none` when no connection exists). -/
structure ProduceOut where
  args : List PyVal
  kwargs : PyDict
  conn : Option Conn

/-- From `producer_interceptor.py`, lines 49-56: the partition-recording
stage of `produce`, run as soon as a connection exists (before the
readiness gate): when a partition was supplied (positionally at index 3 or
by name), record it for the topic. -/
def partitionStage (s : Conn) (topic : PyVal) (args : List PyVal) (kwargs : PyDict) : Conn :=
  if args.length > 3 || dictContains kwargs "partition" then
    let partition :=
      if args.length > 3 then args.getD 3 PyVal.none
      else (dictGet kwargs "partition").getD PyVal.none
    updateTopicPartitions s topic partition
  else s

/-- From `producer_interceptor.py`, line 62: the message value, taken from
positional index 1 if present, else from `kwargs.get("value")`. -/
def produceMsgArg (args : List PyVal) (kwargs : PyDict) : PyVal :=
  if args.length > 1 then args.getD 1 PyVal.none
  else (dictGet kwargs "value").getD PyVal.none

/-- From `producer_interceptor.py`, lines 70-84: attaching the superstream
headers to the call.  `_serialize` always returns a dict (never `None`),
so the source's `if superstream_headers is not None:` guard is always
taken.  When headers were passed positionally as `None`, the source
executes `args[headers_index] = superstream_headers` on the `args`
*tuple*, which raises `TypeError` (tuples do not support item
assignment). -/
def mergeHeaderStage (args : List PyVal) (kwargs : PyDict) (sHeaders : PyDict) :
    Except PyErr (List PyVal × PyDict) :=
  if args.length > 6 then
    match args.getD 6 PyVal.none with
    | PyVal.none => Except.error PyErr.typeError
    | PyVal.dict d => Except.ok (args.set 6 (PyVal.dict (dictUpdate d sHeaders)), kwargs)
    | PyVal.list xs => Except.ok (args.set 6 (PyVal.list (xs ++ dictItems sHeaders)), kwargs)
    | _ => Except.ok (args, kwargs)
  else
    match dictGet kwargs "headers" with
    | Option.none => Except.ok (args, dictSet kwargs "headers" (PyVal.dict sHeaders))
    | some PyVal.none => Except.ok (args, dictSet kwargs "headers" (PyVal.dict sHeaders))
    | some (PyVal.dict d) =>
      Except.ok (args, dictSet kwargs "headers" (PyVal.dict (dictUpdate d sHeaders)))
    | some (PyVal.list xs) =>
      Except.ok (args, dictSet kwargs "headers" (PyVal.list (xs ++ dictItems sHeaders)))
    | some _ => Except.ok (args, kwargs)

/-- From `producer_interceptor.py`, lines 86-89: replace the message value
with the serialized payload, in whichever representation it was supplied. -/
def replaceValueStage (args : List PyVal) (kwargs : PyDict) (payload : List Nat) :
    List PyVal × PyDict :=
  if args.length > 1 then (args.set 1 (PyVal.bytes payload), kwargs)
  else if dictContains kwargs "value" then (args, dictSet kwargs "value" (PyVal.bytes payload))
  else (args, kwargs)

/-- From `producer_interceptor.py`, lines 91-112: wrap the caller's
delivery callback (if one was supplied) with `updated_on_delivery_cb`;
the named representation wins when both are present (lines 91-94). -/
def wrapCallbackStage (args : List PyVal) (kwargs : PyDict) : List PyVal × PyDict :=
  let origCb :=
    if dictContains kwargs "on_delivery" then (dictGet kwargs "on_delivery").getD PyVal.none
    else args.getD 4 PyVal.none
  if args.length > 4 then (args.set 4 (PyVal.wrappedCallback origCb), kwargs)
  else if dictContains kwargs "on_delivery" then
    (args, dictSet kwargs "on_delivery" (PyVal.wrappedCallback origCb))
  else (args, kwargs)

/-- From `producer_interceptor.py`, lines 35-114
(`SuperstreamProducerInterceptor.produce`).  `conn` is the connection
stored in the interceptor's configuration (`Option.none` when absent);
`learnExc` / `regExc` are the exception oracles threaded to `_serialize`.
An `Except.ok` result carries exactly the arguments passed on to
`self._producer_handler`; an `Except.error` result means the exception
escaped `produce` and the handler was never invoked. -/
def produceI (conn : Option Conn) (args : List PyVal) (kwargs : PyDict)
    (learnExc regExc : Option String) : Except PyErr ProduceOut :=
  match conn with
  | Option.none => Except.ok ⟨args, kwargs, Option.none⟩
  | some s =>
    match args.get? 0 with
    | Option.none => Except.error PyErr.indexError
    | some topic =>
      let s2 := partitionStage s topic args kwargs
      if s2.superstream_ready = false then Except.ok ⟨args, kwargs, some s2⟩
      else
        match tryConvertToJson (produceMsgArg args kwargs) with
        | Option.none => Except.ok ⟨args, kwargs, some s2⟩
        | some jsonMsg =>
          match serializeStep s2 jsonMsg learnExc regExc with
          | (serializedMsg, sHeaders, s3) =>
            match mergeHeaderStage args kwargs sHeaders with
            | Except.error e => Except.error e
            | Except.ok (args2, kwargs2) =>
              match replaceValueStage args2 kwargs2 serializedMsg with
              | (args3, kwargs3) =>
                match wrapCallbackStage args3 kwargs3 with
                | (args4, kwargs4) => Except.ok ⟨args4, kwargs4, some s3⟩

/-! ### The wrapped delivery callback -/

/-- The error indicator the underlying client passes to a delivery
callback: `None` on success, a (truthy) `KafkaError` object on failure. -/
inductive DeliveryErr where
  | noError
  | kafkaError (code : Int)
deriving DecidableEq

/-- Python truthiness of the delivery error indicator (`if err:`). -/
def errTruthy : DeliveryErr → Bool
  | DeliveryErr.noError => false
  | DeliveryErr.kafkaError _ => true

/-- The delivered-message handle: what `msg.topic()` and `msg.partition()`
return. -/
structure MsgHandle where
  topic : PyVal
  partition : PyVal

/-- From `producer_interceptor.py`, lines 96-103 (`updated_on_delivery_cb`):
on a truthy error indicator, invoke the original callback unchanged; on
success, record the delivered message's topic and partition, then invoke
the original callback.  The second component lists the invocations of the
original callback, in order, with their arguments. -/
def updatedOnDeliveryCb (s : Conn) (err : DeliveryErr) (msg : MsgHandle) :
    Conn × List (DeliveryErr × MsgHandle) :=
  if errTruthy err then (s, [(err, msg)])
  else (updateTopicPartitions s msg.topic msg.partition, [(err, msg)])

/-! ### `KafkaUtil` configuration tables and enrichment (`utils.py`) -/

namespace KafkaUtil

/-- From `utils.py`, lines 125-232 (`KafkaUtil.ProducerAndConsumerConfigKeys`).
Note: at line 145 the source juxtaposes two string literals
(`"socket.send.buffer.bytes" "socket.receive.buffer.bytes"`), which Python
concatenates into the single list element reproduced below. -/
def ProducerAndConsumerConfigKeys : List String := [
  "builtin.features",
  "client.id",
  "metadata.broker.list",
  "bootstrap.servers",
  "message.max.bytes",
  "message.copy.max.bytes",
  "receive.message.max.bytes",
  "max.in.flight.requests.per.connection",
  "max.in.flight",
  "topic.metadata.refresh.interval.ms",
  "metadata.max.age.ms",
  "topic.metadata.refresh.fast.interval.ms",
  "topic.metadata.refresh.fast.cnt",
  "topic.metadata.refresh.sparse",
  "topic.metadata.propagation.max.ms",
  "topic.blacklist",
  "debug",
  "socket.timeout.ms",
  "socket.blocking.max.ms",
  "socket.send.buffer.bytessocket.receive.buffer.bytes",
  "socket.keepalive.enable",
  "socket.nagle.disable",
  "socket.max.fails",
  "broker.address.ttl",
  "broker.address.family",
  "socket.connection.setup.timeout.ms",
  "connections.max.idle.ms",
  "reconnect.backoff.jitter.ms",
  "reconnect.backoff.ms",
  "reconnect.backoff.max.ms",
  "statistics.interval.ms",
  "enabled_events",
  "error_cb",
  "throttle_cb",
  "stats_cb",
  "log_cb",
  "log_level",
  "log.queue",
  "log.thread.name",
  "enable.random.seed",
  "log.connection.close",
  "background_event_cb",
  "socket_cb",
  "connect_cb",
  "closesocket_cb",
  "open_cb",
  "resolve_cb",
  "opaque",
  "default_topic_conf",
  "internal.termination.signal",
  "api.version.request",
  "api.version.request.timeout.ms",
  "api.version.fallback.ms",
  "broker.version.fallback",
  "allow.auto.create.topics",
  "security.protocol",
  "ssl.cipher.suites",
  "ssl.curves.list",
  "ssl.sigalgs.list",
  "ssl.key.location",
  "ssl.key.password",
  "ssl.key.pem",
  "ssl_key",
  "ssl.certificate.location",
  "ssl.certificate.pem",
  "ssl_certificate",
  "ssl.ca.location",
  "ssl.ca.pem",
  "ssl_ca",
  "ssl.ca.certificate.stores",
  "ssl.crl.location",
  "ssl.keystore.location",
  "ssl.keystore.password",
  "ssl.providers",
  "ssl.engine.location",
  "ssl.engine.id",
  "ssl_engine_callback_data",
  "enable.ssl.certificate.verification",
  "ssl.endpoint.identification.algorithm",
  "ssl.certificate.verify_cb",
  "sasl.mechanisms",
  "sasl.mechanism",
  "sasl.kerberos.service.name",
  "sasl.kerberos.principal",
  "sasl.kerberos.kinit.cmd",
  "sasl.kerberos.keytab",
  "sasl.kerberos.min.time.before.relogin",
  "sasl.username",
  "sasl.password",
  "sasl.oauthbearer.config",
  "enable.sasl.oauthbearer.unsecure.jwt",
  "oauthbearer_token_refresh_cb",
  "sasl.oauthbearer.method",
  "sasl.oauthbearer.client.id",
  "sasl.oauthbearer.client.secret",
  "sasl.oauthbearer.scope",
  "sasl.oauthbearer.extensions",
  "sasl.oauthbearer.token.endpoint.url",
  "plugin.library.paths",
  "interceptors",
  "client.rack",
  "retry.backoff.ms",
  "retry.backoff.max.ms",
  "client.dns.lookup",
  "enable.metrics.push",
  "opaque"]

/-- From `utils.py`, lines 234-265 (`KafkaUtil.ProducerConfigKeys`). -/
def ProducerConfigKeys : List String := [
  "transactional.id",
  "transaction.timeout.ms",
  "enable.idempotence",
  "enable.gapless.guarantee",
  "queue.buffering.max.messages",
  "queue.buffering.max.kbytes",
  "queue.buffering.max.ms",
  "linger.ms",
  "message.send.max.retries",
  "retries",
  "request.required.acks",
  "acks",
  "request.timeout.ms",
  "message.timeout.ms",
  "delivery.timeout.ms",
  "queuing.strategy",
  "produce.offset.report",
  "partitioner",
  "partitioner_cb",
  "msg_order_cmp",
  "compression.codec",
  "compression.type",
  "compression.level",
  "queue.buffering.backpressure.threshold",
  "batch.num.messages",
  "batch.size",
  "delivery.report.only.error",
  "dr_cb",
  "dr_msg_cb",
  "sticky.partitioning.linger.ms"]

/-- From `utils.py`, lines 307-484 (`KafkaUtil.Defaults`).  The entries are
reproduced in source order; the Python dict literal binds repeated keys
(`compression.codec`, `compression.type`, `enable.auto.commit`,
`auto.commit.interval.ms`, `offset.store.method`) to the *last* occurrence,
which is exactly the `dictGet` lookup semantics of this embedding. -/
def Defaults : PyDict := [
  ("builtin.features", PyVal.str "gzip,snappy,ssl,sasl,regex,lz4,sasl_gssapi,sasl_plain,sasl_scram,plugins,zstd,sasl_oauthbearer,http,oidc"),
  ("client.id", PyVal.str "rdkafka"),
  ("metadata.broker.list", PyVal.str ""),
  ("bootstrap.servers", PyVal.str ""),
  ("message.max.bytes", PyVal.int 1000000),
  ("message.copy.max.bytes", PyVal.int 65535),
  ("receive.message.max.bytes", PyVal.int 100000000),
  ("max.in.flight.requests.per.connection", PyVal.int 1000000),
  ("max.in.flight", PyVal.int 1000000),
  ("topic.metadata.refresh.interval.ms", PyVal.int 300000),
  ("metadata.max.age.ms", PyVal.int 900000),
  ("topic.metadata.refresh.fast.interval.ms", PyVal.int 100),
  ("topic.metadata.refresh.fast.cnt", PyVal.int 10),
  ("topic.metadata.refresh.sparse", PyVal.bool true),
  ("topic.metadata.propagation.max.ms", PyVal.int 30000),
  ("topic.blacklist", PyVal.str ""),
  ("debug", PyVal.str ""),
  ("socket.timeout.ms", PyVal.int 60000),
  ("socket.blocking.max.ms", PyVal.int 1000),
  ("socket.send.buffer.bytes", PyVal.int 0),
  ("socket.receive.buffer.bytes", PyVal.int 0),
  ("socket.keepalive.enable", PyVal.bool false),
  ("socket.nagle.disable", PyVal.bool false),
  ("socket.max.fails", PyVal.int 1),
  ("broker.address.ttl", PyVal.int 1000),
  ("broker.address.family", PyVal.str "any"),
  ("socket.connection.setup.timeout.ms", PyVal.int 30000),
  ("connections.max.idle.ms", PyVal.int 0),
  ("reconnect.backoff.jitter.ms", PyVal.int 0),
  ("reconnect.backoff.ms", PyVal.int 100),
  ("reconnect.backoff.max.ms", PyVal.int 10000),
  ("statistics.interval.ms", PyVal.int 0),
  ("enabled_events", PyVal.int 0),
  ("error_cb", PyVal.str ""),
  ("throttle_cb", PyVal.str ""),
  ("stats_cb", PyVal.str ""),
  ("log_cb", PyVal.str ""),
  ("log_level", PyVal.int 6),
  ("log.queue", PyVal.bool false),
  ("log.thread.name", PyVal.bool true),
  ("enable.random.seed", PyVal.bool true),
  ("log.connection.close", PyVal.bool true),
  ("background_event_cb", PyVal.str ""),
  ("socket_cb", PyVal.str ""),
  ("connect_cb", PyVal.str ""),
  ("closesocket_cb", PyVal.str ""),
  ("open_cb", PyVal.str ""),
  ("resolve_cb", PyVal.str ""),
  ("opaque", PyVal.str ""),
  ("default_topic_conf", PyVal.str ""),
  ("internal.termination.signal", PyVal.int 0),
  ("api.version.request", PyVal.bool true),
  ("api.version.request.timeout.ms", PyVal.int 10000),
  ("api.version.fallback.ms", PyVal.int 0),
  ("broker.version.fallback", PyVal.str "0.10.0"),
  ("allow.auto.create.topics", PyVal.bool false),
  ("security.protocol", PyVal.str "plaintext"),
  ("ssl.cipher.suites", PyVal.str ""),
  ("ssl.curves.list", PyVal.str ""),
  ("ssl.sigalgs.list", PyVal.str ""),
  ("ssl.key.location", PyVal.str ""),
  ("ssl.key.password", PyVal.str ""),
  ("ssl.key.pem", PyVal.str ""),
  ("ssl_key", PyVal.str ""),
  ("ssl.certificate.location", PyVal.str ""),
  ("ssl.certificate.pem", PyVal.str ""),
  ("ssl_certificate", PyVal.str ""),
  ("ssl.ca.location", PyVal.str ""),
  ("ssl.ca.pem", PyVal.str ""),
  ("ssl_ca", PyVal.str ""),
  ("ssl.ca.certificate.stores", PyVal.str "Root"),
  ("ssl.crl.location", PyVal.str ""),
  ("ssl.keystore.location", PyVal.str ""),
  ("ssl.keystore.password", PyVal.str ""),
  ("ssl.providers", PyVal.str ""),
  ("ssl.engine.location", PyVal.str ""),
  ("ssl.engine.id", PyVal.str "dynamic"),
  ("ssl_engine_callback_data", PyVal.str ""),
  ("enable.ssl.certificate.verification", PyVal.bool true),
  ("ssl.endpoint.identification.algorithm", PyVal.str "https"),
  ("ssl.certificate.verify_cb", PyVal.str ""),
  ("sasl.mechanisms", PyVal.str "GSSAPI"),
  ("sasl.mechanism", PyVal.str "GSSAPI"),
  ("sasl.kerberos.service.name", PyVal.str "kafka"),
  ("sasl.kerberos.principal", PyVal.str "kafkaclient"),
  ("sasl.kerberos.kinit.cmd", PyVal.str "\":\"kinit-t\"%\x7bsasl.kerberos.keytab\x7d\"-k%\x7bsasl.kerberos.principal\x7d"),
  ("sasl.kerberos.keytab", PyVal.str ""),
  ("sasl.kerberos.min.time.before.relogin", PyVal.int 60000),
  ("sasl.username", PyVal.str ""),
  ("sasl.password", PyVal.str ""),
  ("sasl.oauthbearer.config", PyVal.str ""),
  ("enable.sasl.oauthbearer.unsecure.jwt", PyVal.bool false),
  ("oauthbearer_token_refresh_cb", PyVal.str ""),
  ("sasl.oauthbearer.method", PyVal.str "default"),
  ("sasl.oauthbearer.client.id", PyVal.str ""),
  ("sasl.oauthbearer.client.secret", PyVal.str ""),
  ("sasl.oauthbearer.scope", PyVal.str ""),
  ("sasl.oauthbearer.extensions", PyVal.str ""),
  ("sasl.oauthbearer.token.endpoint.url", PyVal.str ""),
  ("plugin.library.paths", PyVal.str ""),
  ("interceptors", PyVal.str ""),
  ("group.id", PyVal.str ""),
  ("group.instance.id", PyVal.str ""),
  ("partition.assignment.strategy", PyVal.str "range,roundrobin"),
  ("session.timeout.ms", PyVal.int 45000),
  ("heartbeat.interval.ms", PyVal.int 3000),
  ("group.protocol.type", PyVal.str "consumer"),
  ("group.protocol", PyVal.str "classic"),
  ("group.remote.assignor", PyVal.str ""),
  ("coordinator.query.interval.ms", PyVal.int 600000),
  ("max.poll.interval.ms", PyVal.int 300000),
  ("enable.auto.commit", PyVal.bool true),
  ("auto.commit.interval.ms", PyVal.int 5000),
  ("enable.auto.offset.store", PyVal.bool true),
  ("queued.min.messages", PyVal.int 100000),
  ("queued.max.messages.kbytes", PyVal.int 65536),
  ("fetch.wait.max.ms", PyVal.int 500),
  ("fetch.queue.backoff.ms", PyVal.int 1000),
  ("fetch.message.max.bytes", PyVal.int 1048576),
  ("max.partition.fetch.bytes", PyVal.int 1048576),
  ("fetch.max.bytes", PyVal.int 52428800),
  ("fetch.min.bytes", PyVal.int 1),
  ("fetch.error.backoff.ms", PyVal.int 500),
  ("offset.store.method", PyVal.str "broker"),
  ("isolation.level", PyVal.str "read_committed"),
  ("consume_cb", PyVal.str ""),
  ("rebalance_cb", PyVal.str ""),
  ("offset_commit_cb", PyVal.str ""),
  ("enable.partition.eof", PyVal.bool false),
  ("check.crcs", PyVal.bool false),
  ("client.rack", PyVal.str ""),
  ("transactional.id", PyVal.str ""),
  ("transaction.timeout.ms", PyVal.int 60000),
  ("enable.idempotence", PyVal.bool false),
  ("enable.gapless.guarantee", PyVal.bool false),
  ("queue.buffering.max.messages", PyVal.int 100000),
  ("queue.buffering.max.kbytes", PyVal.int 1048576),
  ("queue.buffering.max.ms", PyVal.int 5),
  ("linger.ms", PyVal.int 5),
  ("message.send.max.retries", PyVal.int 2147483647),
  ("retries", PyVal.int 2147483647),
  ("retry.backoff.ms", PyVal.int 100),
  ("retry.backoff.max.ms", PyVal.int 1000),
  ("queue.buffering.backpressure.threshold", PyVal.int 1),
  ("compression.codec", PyVal.str "none"),
  ("compression.type", PyVal.str "none"),
  ("batch.num.messages", PyVal.int 10000),
  ("batch.size", PyVal.int 1000000),
  ("delivery.report.only.error", PyVal.bool false),
  ("dr_cb", PyVal.str ""),
  ("dr_msg_cb", PyVal.str ""),
  ("sticky.partitioning.linger.ms", PyVal.int 10),
  ("client.dns.lookup", PyVal.str "use_all_dns_ips"),
  ("enable.metrics.push", PyVal.bool true),
  ("request.required.acks", PyVal.int (-1)),
  ("acks", PyVal.int (-1)),
  ("request.timeout.ms", PyVal.int 30000),
  ("message.timeout.ms", PyVal.int 300000),
  ("delivery.timeout.ms", PyVal.int 300000),
  ("queuing.strategy", PyVal.str "fifo"),
  ("produce.offset.report", PyVal.bool false),
  ("partitioner", PyVal.str "consistent_random"),
  ("partitioner_cb", PyVal.str ""),
  ("msg_order_cmp", PyVal.str ""),
  ("opaque", PyVal.str ""),
  ("compression.codec", PyVal.str "inherit"),
  ("compression.type", PyVal.str "none"),
  ("compression.level", PyVal.int (-1)),
  ("auto.commit.enable", PyVal.bool true),
  ("enable.auto.commit", PyVal.bool true),
  ("auto.commit.interval.ms", PyVal.int 60000),
  ("auto.offset.reset", PyVal.str "largest"),
  ("offset.store.path", PyVal.str "."),
  ("offset.store.sync.interval.ms", PyVal.int (-1)),
  ("offset.store.method", PyVal.str "broker"),
  ("consume.callback.max.messages", PyVal.int 0)]

/-- From `utils.py`, lines 533-535: the key set
`ProducerConfigKeys + ProducerAndConsumerConfigKeys` iterated by
`enrich_producer_config`. -/
def producerKeys : List String :=
  ProducerConfigKeys ++ ProducerAndConsumerConfigKeys

/-- The per-key step of the enrichment loop in `utils.py`, lines 536-540:
skip keys already bound in the accumulating config, else fill in the
default when the defaults table has one. -/
def enrichStep (acc : PyDict) (key : String) : PyDict :=
  if (dictGet acc key).isSome then acc
  else
    match dictGet Defaults key with
    | some v => dictSet acc key v
    | Option.none => acc

/-- From `utils.py`, lines 530-542 (`KafkaUtil.enrich_producer_config`):
copy the input config, then fill in a default for every producer-or-shared
key that is absent and has an entry in `Defaults`.  The embedding is pure,
so the input mapping is trivially left unmodified, as the source's
`config.copy()` guarantees. -/
def enrich_producer_config (config : PyDict) : PyDict :=
  producerKeys.foldl enrichStep config

end KafkaUtil

/-! ### `TaskUtil` (the AsyncTaskRunner) -/

/-- The process-wide state of `TaskUtil` (`utils.py`, lines 603-618),
together with the observables the claims are about: `eventLoop` is the
remembered loop (`TaskUtil._event_loop`, identified by a numeric id),
`createdThreads` counts the background worker threads ever started, and
`bgLoops` are the loops created by `TaskUtil` itself.  A loop in
`bgLoops` runs `run_forever` on a dedicated daemon thread and nothing in
the repository ever stops it, so it is modelled as permanently running. -/
structure TaskState where
  eventLoop : Option Nat
  createdThreads : Nat
  bgLoops : List Nat
deriving DecidableEq

/-- The external circumstances of one `create_task` call: which loops are
currently running outside `TaskUtil`, what `asyncio.get_running_loop()`
returns in the calling thread (`Option.none` when it raises), and the
identity `asyncio.new_event_loop()` would allocate. -/
structure CallCtx where
  runningLoops : List Nat
  callerLoop : Option Nat
  freshLoop : Nat
deriving DecidableEq

/-- `loop.is_running()`: running externally, or one of `TaskUtil`'s own
forever-running background loops. -/
def loopIsRunning (st : TaskState) (ctx : CallCtx) (l : Nat) : Bool :=
  ctx.runningLoops.contains l || st.bgLoops.contains l

/-- The fall-through part of `create_task` (`utils.py`, lines 610-618):
try `asyncio.get_running_loop()`; on failure create a new loop, start a
daemon thread running it forever, and remember it. -/
def createTaskSlow (st : TaskState) (ctx : CallCtx) : TaskState × Nat :=
  match ctx.callerLoop with
  | some rl => ({ st with eventLoop := some rl }, rl)
  | Option.none =>
    let nl := ctx.freshLoop
    ({ eventLoop := some nl, createdThreads := st.createdThreads + 1,
       bgLoops := st.bgLoops ++ [nl] }, nl)

/-- From `utils.py`, lines 605-618 (`TaskUtil.create_task`): reuse the
remembered loop when it is set and running, otherwise fall through to
`createTaskSlow`.  Returns the new state and the loop the task was
scheduled on. -/
def createTask (st : TaskState) (ctx : CallCtx) : TaskState × Nat :=
  match st.eventLoop with
  | some l => if loopIsRunning st ctx l then (st, l) else createTaskSlow st ctx
  | Option.none => createTaskSlow st ctx

/-- The initial `TaskUtil` state (`_event_loop = None`, no threads). -/
def initTaskState : TaskState := ⟨Option.none, 0, []⟩

/-- A sequence of `create_task` calls. -/
def runCreateTasks (st : TaskState) : List CallCtx → TaskState
  | [] => st
  | ctx :: rest => runCreateTasks (createTask st ctx).1 rest

/-! ### Helper lemmas -/

theorem partitionStage_ready (s : Conn) (topic : PyVal) (args : List PyVal) (kwargs : PyDict) :
    (partitionStage s topic args kwargs).superstream_ready = s.superstream_ready := by
  unfold partitionStage updateTopicPartitions
  repeat' (first | split | dsimp only)

/-- Both bypass paths of `produce` with an existing connection and a
non-empty positional argument list: the handler receives the original
arguments, and the connection has only gone through the
partition-recording stage. -/
theorem produce_bypass_eq (s : Conn) (a : PyVal) (rest : List PyVal) (kwargs : PyDict)
    (le re : Option String)
    (h : s.superstream_ready = false ∨
         tryConvertToJson (produceMsgArg (a :: rest) kwargs) = Option.none) :
    produceI (some s) (a :: rest) kwargs le re =
      Except.ok ⟨a :: rest, kwargs, some (partitionStage s a (a :: rest) kwargs)⟩ := by
  have hready := partitionStage_ready s a (a :: rest) kwargs
  rcases h with h | h
  · unfold produceI
    simp [hready, h]
  · unfold produceI
    by_cases hr : (partitionStage s a (a :: rest) kwargs).superstream_ready = false
    · simp [hr]
    · simp [hr, h]

/-! ### Concrete connection states used by the closed theorems -/

/-- A ready connection, learning counter 0, learning factor 3, nothing
recorded yet. -/
def connReadyA : Conn := ⟨true, [], 0, 3, false, [], [], 0⟩

/-- A connection that is not ready (readiness flag false), nothing
recorded yet. -/
def connNotReadyA : Conn := ⟨false, [], 0, 3, false, [], [], 0⟩

/-- A ready connection whose learning counter equals its learning factor. -/
def connBoundaryA : Conn := ⟨true, [], 2, 2, false, [], [], 0⟩

/-! ### The claims -/

/-- C10: when a Connection exists, `produce` reads the topic only from
positional slot 0; a call with an empty positional argument sequence
(topic supplied by name only) raises `IndexError` instead of resolving
the topic from the named arguments or falling back to the delegate. -/
theorem claim10_topic_positional (s : Conn) (kwargs : PyDict) (le re : Option String) :
    produceI (some s) [] kwargs le re = Except.error PyErr.indexError :=
  rfl

/-- C6: the wrapped delivery callback invokes the original callback with
exactly the same two arguments in both cases; on a (truthy, non-null)
error indicator the connection state is untouched, on success the
delivered message's topic and partition are recorded first. -/
theorem claim6_delivery (s : Conn) (err : DeliveryErr) (msg : MsgHandle) :
    (errTruthy err = true → updatedOnDeliveryCb s err msg = (s, [(err, msg)])) ∧
    (errTruthy err = false →
      updatedOnDeliveryCb s err msg =
        (updateTopicPartitions s msg.topic msg.partition, [(err, msg)])) := by
  constructor <;> intro h <;> simp [updatedOnDeliveryCb, h]

/-- Witness for C6 at a concrete error and a concrete success. -/
theorem claim6_witness :
    updatedOnDeliveryCb connReadyA (DeliveryErr.kafkaError 1) ⟨PyVal.str "orders", PyVal.int 2⟩ =
      (connReadyA, [(DeliveryErr.kafkaError 1, ⟨PyVal.str "orders", PyVal.int 2⟩)]) ∧
    updatedOnDeliveryCb connReadyA DeliveryErr.noError ⟨PyVal.str "orders", PyVal.int 2⟩ =
      (updateTopicPartitions connReadyA (PyVal.str "orders") (PyVal.int 2),
       [(DeliveryErr.noError, ⟨PyVal.str "orders", PyVal.int 2⟩)]) :=
  ⟨(claim6_delivery connReadyA (DeliveryErr.kafkaError 1) ⟨PyVal.str "orders", PyVal.int 2⟩).1 rfl,
   (claim6_delivery connReadyA DeliveryErr.noError ⟨PyVal.str "orders", PyVal.int 2⟩).2 rfl⟩

/-- C5: `_serialize` always returns the UTF-8 bytes of its input together
with an empty header mapping, catches any exception from the learning
submission or the registration request, reports it to the connection's
error sink as a descriptive string, and still returns the unchanged
payload (the embedding is a total function: no exception escapes). -/
theorem claim5_serialize (c : Conn) (m : String) (le re : Option String) :
    (serializeStep c m le re).1 = utf8Encode m ∧
    (serializeStep c m le re).2.1 = [] ∧
    (∀ e, le = some e → c.learning_factor_counter ≤ c.learning_factor →
      (serializeStep c m le re).2.2.errors =
        c.errors ++ ["error sending learning message: " ++ e]) ∧
    (∀ e, re = some e → c.learning_factor < c.learning_factor_counter →
      c.learning_request_sent = false →
      (serializeStep c m le re).2.2.errors =
        c.errors ++ ["error sending learning message: " ++ e]) := by
  refine ⟨rfl, rfl, ?_, ?_⟩
  · intro e he hle
    subst he
    simp [serializeStep, hle, handleError]
  · intro e he hgt hflag
    subst he
    have hcond : ¬c.learning_factor_counter ≤ c.learning_factor := not_le.mpr hgt
    simp [serializeStep, hcond, hflag, handleError]

/-- Witness for C5: a failing learning submission on a ready connection
below threshold reports the error and still returns the payload. -/
theorem claim5_witness :
    (serializeStep connReadyA "1" (some "boom") Option.none).1 = utf8Encode "1" ∧
    (serializeStep connReadyA "1" (some "boom") Option.none).2.2.errors =
      connReadyA.errors ++ ["error sending learning message: boom"] :=
  ⟨(claim5_serialize connReadyA "1" (some "boom") Option.none).1,
   (claim5_serialize connReadyA "1" (some "boom") Option.none).2.2.1 "boom" rfl (by decide)⟩

/-- C1 counterexample: a Connection exists but is not ready and the topic
was supplied only by name (empty positional sequence); the claim says the
handler is invoked with the original arguments, but `produce` raises
`IndexError` and the handler is never invoked. -/
theorem claim1_counterexample :
    produceI (some connNotReadyA) [] [("topic", PyVal.str "orders")] Option.none Option.none =
      Except.error PyErr.indexError :=
  rfl

/-- C1 (amended): when no Connection exists — or a Connection exists, at
least one positional argument was supplied, and the Connection is not
ready or the value does not convert to canonical JSON text — the handler
receives positional and named arguments equal to those of the original
call, with no field rewritten. -/
theorem claim1_amended (conn : Option Conn) (args : List PyVal) (kwargs : PyDict)
    (le re : Option String)
    (h : conn = Option.none ∨ ∃ s, conn = some s ∧ args ≠ [] ∧
        (s.superstream_ready = false ∨
         tryConvertToJson (produceMsgArg args kwargs) = Option.none)) :
    ∃ c2, produceI conn args kwargs le re = Except.ok ⟨args, kwargs, c2⟩ := by
  rcases h with h | ⟨s, hc, hne, hbp⟩
  · subst h
    exact ⟨Option.none, rfl⟩
  · subst hc
    obtain ⟨a, rest, hargs⟩ := List.exists_cons_of_ne_nil hne
    subst hargs
    exact ⟨some (partitionStage s a (a :: rest) kwargs),
           produce_bypass_eq s a rest kwargs le re hbp⟩

/-- Witness for C1 at a concrete not-ready connection. -/
theorem claim1_witness :
    ∃ c2, produceI (some connNotReadyA) [PyVal.str "t"] [] Option.none Option.none =
      Except.ok ⟨[PyVal.str "t"], [], c2⟩ :=
  claim1_amended (some connNotReadyA) [PyVal.str "t"] [] Option.none Option.none
    (Or.inr ⟨connNotReadyA, rfl, by simp, Or.inl rfl⟩)

/-- C7 counterexample: a Connection exists, is not ready, and an explicit
partition argument is supplied; the claim says no Connection state is
mutated, but the partition-usage mapping gains the pair
(topic "orders", partition 2). -/
theorem claim7_counterexample :
    connNotReadyA.topic_partitions = [] ∧
    produceI (some connNotReadyA) [PyVal.str "orders", PyVal.str "x"]
        [("partition", PyVal.int 2)] Option.none Option.none =
      Except.ok ⟨[PyVal.str "orders", PyVal.str "x"], [("partition", PyVal.int 2)],
        some ⟨false, [(PyVal.str "orders", [PyVal.int 2])], 0, 3, false, [], [], 0⟩⟩ :=
  ⟨rfl, rfl⟩

/-- C7 (amended): on a bypass path with an existing Connection (not ready,
or value not convertible) and a non-empty positional sequence, the handler
receives the original unmodified arguments and the only Connection state
that can change is the partition-usage mapping, which is updated exactly
when an explicit partition argument was supplied (positionally or by
name); with no partition argument the Connection is entirely unchanged. -/
theorem claim7_amended (s : Conn) (a : PyVal) (rest : List PyVal) (kwargs : PyDict)
    (le re : Option String)
    (h : s.superstream_ready = false ∨
         tryConvertToJson (produceMsgArg (a :: rest) kwargs) = Option.none) :
    produceI (some s) (a :: rest) kwargs le re =
      Except.ok ⟨a :: rest, kwargs, some (partitionStage s a (a :: rest) kwargs)⟩ ∧
    (((a :: rest).length > 3 || dictContains kwargs "partition") = false →
      partitionStage s a (a :: rest) kwargs = s) := by
  refine ⟨produce_bypass_eq s a rest kwargs le re h, ?_⟩
  intro hnp
  rw [Bool.or_eq_false_iff] at hnp
  obtain ⟨h1, h2⟩ := hnp
  simp only [partitionStage, h1, h2, Bool.or_self, Bool.false_eq_true, if_false]

/-- Witness for C7: a not-ready connection, once with a partition argument
(recorded), once without (state unchanged). -/
theorem claim7_witness :
    produceI (some connNotReadyA) [PyVal.str "orders"] [("partition", PyVal.int 5)]
        Option.none Option.none =
      Except.ok ⟨[PyVal.str "orders"], [("partition", PyVal.int 5)],
        some (partitionStage connNotReadyA (PyVal.str "orders") [PyVal.str "orders"]
          [("partition", PyVal.int 5)])⟩ ∧
    partitionStage connNotReadyA (PyVal.str "orders") [PyVal.str "orders"] [] = connNotReadyA :=
  ⟨(claim7_amended connNotReadyA (PyVal.str "orders") [] [("partition", PyVal.int 5)]
      Option.none Option.none (Or.inl rfl)).1,
   (claim7_amended connNotReadyA (PyVal.str "orders") [] [] Option.none Option.none
      (Or.inl rfl)).2 rfl⟩

/-- Projection of the named arguments the handler receives from a
successful `produce` outcome (empty when the handler was never invoked). -/
def outKwargs : Except PyErr ProduceOut → PyDict
  | Except.ok r => r.kwargs
  | Except.error _ => []

/-- C2 counterexample: for `produce("orders", {"id": 1}, partition=2)` on a
ready connection below threshold, the original call carries no `headers`
argument, yet the delegate receives a new named argument
`headers = (empty dict)` — contradicting "no new arguments added". -/
theorem claim2_counterexample :
    dictGet [("partition", PyVal.int 2)] "headers" = Option.none ∧
    dictGet (outKwargs (produceI (some connReadyA)
        [PyVal.str "orders", PyVal.dict [("id", PyVal.int 1)]]
        [("partition", PyVal.int 2)] Option.none Option.none)) "headers" =
      some (PyVal.dict []) :=
  ⟨rfl, rfl⟩

/-- C2 (amended): for `produce("orders", {"id": 1}, partition=2)` on a ready
connection below threshold (successful learning submission), the delegate
receives topic `"orders"`, the value replaced by the UTF-8 bytes of
`'{"id": 1}'`, `partition=2` unchanged, plus one additional named argument
`headers` bound to the (empty) superstream header dict; partition 2 is
recorded under topic `"orders"`, and the byte payload was submitted as a
learning message with the counter incremented. -/
theorem claim2_amended :
    produceI (some connReadyA) [PyVal.str "orders", PyVal.dict [("id", PyVal.int 1)]]
        [("partition", PyVal.int 2)] Option.none Option.none =
      Except.ok ⟨[PyVal.str "orders", PyVal.bytes [123, 34, 105, 100, 34, 58, 32, 49, 125]],
        [("partition", PyVal.int 2), ("headers", PyVal.dict [])],
        some ⟨true, [(PyVal.str "orders", [PyVal.int 2])], 1, 3, false, [],
              [[123, 34, 105, 100, 34, 58, 32, 49, 125]], 0⟩⟩ :=
  rfl

/-- C3: evaluation of `produce` at the failing input
`produce("orders", {"id": 1}, None, None, None, 0, None)` (headers slot
supplied positionally as `None`) on a ready connection: the source executes
`args[headers_index] = superstream_headers` on the `args` tuple, so the
call raises `TypeError` instead of attaching the superstream headers. -/
theorem claim3_bug :
    produceI (some connReadyA)
        [PyVal.str "orders", PyVal.dict [("id", PyVal.int 1)], PyVal.none, PyVal.none,
         PyVal.none, PyVal.int 0, PyVal.none] [] Option.none Option.none =
      Except.error PyErr.typeError :=
  rfl

/-- C4 counterexample: (a) with the learning counter *equal* to the
learning factor (threshold reached) and the registration flag unset, the
claim says a schema-registration request is issued; the code instead
submits another learning message and increments the counter past the
factor, issuing no registration.  (b) with the counter below the factor
but a failing submission, the claim's "counter increases by exactly 1"
fails: the counter is unchanged. -/
theorem claim4_counterexample :
    ((serializeStep connBoundaryA "1" Option.none Option.none).2.2.regRequests = 0 ∧
     (serializeStep connBoundaryA "1" Option.none Option.none).2.2.learnLog = [[49]] ∧
     (serializeStep connBoundaryA "1" Option.none Option.none).2.2.learning_factor_counter = 3) ∧
    (serializeStep connReadyA "1" (some "boom") Option.none).2.2.learning_factor_counter = 0 := by
  refine ⟨⟨rfl, rfl, by decide⟩, by decide⟩

/-- The step of `_serialize` preserves the quantity
`regRequests + (1 if the registration flag is unset else 0)`:
a registration request is only ever issued with the flag unset, and
issuing it sets the flag, which is never cleared. -/
theorem serializeStep_reg_invariant (c : Conn) (m : String) (le re : Option String) :
    (serializeStep c m le re).2.2.regRequests +
      (if (serializeStep c m le re).2.2.learning_request_sent then 0 else 1) =
    c.regRequests + (if c.learning_request_sent then 0 else 1) := by
  by_cases hle : c.learning_factor_counter ≤ c.learning_factor
  · cases le <;> simp [serializeStep, hle, sendLearningMessage, handleError]
  · by_cases hflag : c.learning_request_sent
    · simp [serializeStep, hle, hflag]
    · cases re <;>
        simp [serializeStep, hle, hflag, sendRegisterSchemaReq, handleError]

/-- The invariant of `serializeStep_reg_invariant`, over any sequence of
`_serialize` calls. -/
theorem runSerializeSeq_reg_invariant (inputs : List (String × Option String × Option String))
    (c : Conn) :
    (runSerializeSeq c inputs).regRequests +
      (if (runSerializeSeq c inputs).learning_request_sent then 0 else 1) =
    c.regRequests + (if c.learning_request_sent then 0 else 1) := by
  induction inputs generalizing c with
  | nil => rfl
  | cons p rest ih =>
    obtain ⟨m, le, re⟩ := p
    simp only [runSerializeSeq]
    rw [ih, serializeStep_reg_invariant]

/-- C4 (amended): if the learning counter has not yet *exceeded* the
learning factor, the encoded bytes are submitted as a learning message
and, when the submission succeeds, the counter increases by exactly 1;
otherwise, if the registration flag is unset, a schema-registration
request is issued (when it does not fail); and across any sequence of
`_serialize` calls, a connection that has issued no registration request
issues at most one. -/
theorem claim4_amended (c : Conn) (m : String) (le re : Option String)
    (inputs : List (String × Option String × Option String)) :
    (c.learning_factor_counter ≤ c.learning_factor →
      (serializeStep c m Option.none re).2.2.learnLog = c.learnLog ++ [utf8Encode m] ∧
      (serializeStep c m Option.none re).2.2.learning_factor_counter =
        c.learning_factor_counter + 1) ∧
    (c.learning_factor < c.learning_factor_counter → c.learning_request_sent = false →
      (serializeStep c m le Option.none).2.2.regRequests = c.regRequests + 1) ∧
    (c.regRequests = 0 → (runSerializeSeq c inputs).regRequests ≤ 1) := by
  refine ⟨?_, ?_, ?_⟩
  · intro hle
    constructor <;> simp [serializeStep, hle, sendLearningMessage]
  · intro hgt hflag
    have hcond : ¬c.learning_factor_counter ≤ c.learning_factor := not_le.mpr hgt
    simp [serializeStep, hcond, hflag, sendRegisterSchemaReq]
  · intro h0
    have h := runSerializeSeq_reg_invariant inputs c
    rw [h0] at h
    split_ifs at h <;> omega

/-- Witness for C4: a fresh ready connection submits its first message for
learning and increments its counter, and never issues more than one
registration request over a run. -/
theorem claim4_witness :
    (serializeStep connReadyA "1" Option.none Option.none).2.2.learning_factor_counter =
      connReadyA.learning_factor_counter + 1 ∧
    (runSerializeSeq connReadyA [("1", Option.none, Option.none)]).regRequests ≤ 1 :=
  ⟨((claim4_amended connReadyA "1" Option.none Option.none []).1 (by decide)).2,
   (claim4_amended connReadyA "1" Option.none Option.none
      [("1", Option.none, Option.none)]).2.2 rfl⟩

/-- Looking up `k` after appending a single entry `(k2, v)`: the new entry
wins exactly when its key is `k`. -/
theorem dictGet_append_single (d : PyDict) (k k2 : String) (v : PyVal) :
    dictGet (d ++ [(k2, v)]) k = if k2 == k then some v else dictGet d k := by
  simp only [dictGet, List.foldl_append, List.foldl_cons, List.foldl_nil]

/-- Setting an absent key appends its entry. -/
theorem dictSet_absent (d : PyDict) (k : String) (v : PyVal)
    (h : dictGet d k = Option.none) : dictSet d k v = d ++ [(k, v)] := by
  rw [dictSet, h]
  rfl

/-- One enrichment step never changes the binding of a key different from
the key being processed. -/
theorem dictGet_enrichStep_ne (acc : PyDict) (key k : String) (h : key ≠ k) :
    dictGet (KafkaUtil.enrichStep acc key) k = dictGet acc k := by
  unfold KafkaUtil.enrichStep
  cases hx : dictGet acc key with
  | some w => rfl
  | none =>
    cases hdef : dictGet KafkaUtil.Defaults key with
    | none => rfl
    | some dv =>
      simp only [Option.isSome_none, Bool.false_eq_true, if_false]
      rw [dictSet_absent acc key dv hx, dictGet_append_single]
      simp [h]

/-- One enrichment step never changes an existing binding. -/
theorem dictGet_enrichStep_preserved (acc : PyDict) (key k : String) (v : PyVal)
    (h : dictGet acc k = some v) :
    dictGet (KafkaUtil.enrichStep acc key) k = some v := by
  by_cases hkk : key = k
  · subst hkk
    unfold KafkaUtil.enrichStep
    rw [h]
    exact h
  · rw [dictGet_enrichStep_ne acc key k hkk]
    exact h

/-- The whole enrichment fold never changes an existing binding. -/
theorem dictGet_enrichFold_preserved (keys : List String) (acc : PyDict) (k : String)
    (v : PyVal) (h : dictGet acc k = some v) :
    dictGet (keys.foldl KafkaUtil.enrichStep acc) k = some v := by
  induction keys generalizing acc with
  | nil => exact h
  | cons key rest ih =>
    exact ih (KafkaUtil.enrichStep acc key) (dictGet_enrichStep_preserved acc key k v h)

/-- The enrichment fold binds every processed key that is absent from the
accumulator and present in the defaults table to its default. -/
theorem dictGet_enrichFold_fills (k : String) (dv : PyVal) :
    ∀ (keys : List String) (acc : PyDict), k ∈ keys →
      dictGet KafkaUtil.Defaults k = some dv → dictGet acc k = Option.none →
      dictGet (keys.foldl KafkaUtil.enrichStep acc) k = some dv := by
  intro keys
  induction keys with
  | nil => intro acc hmem; cases hmem
  | cons key rest ih =>
    intro acc hmem hdef habs
    by_cases hkk : key = k
    · subst hkk
      have hstep : dictGet (KafkaUtil.enrichStep acc key) key = some dv := by
        unfold KafkaUtil.enrichStep
        rw [habs, hdef]
        simp only [Option.isSome_none, Bool.false_eq_true, if_false]
        rw [dictSet, habs]
        simp only [Option.isSome_none, Bool.false_eq_true, if_false]
        rw [dictGet_append_single]
        simp
      exact dictGet_enrichFold_preserved rest (KafkaUtil.enrichStep acc key) key dv hstep
    · have hmem2 : k ∈ rest := by
        rcases List.mem_cons.mp hmem with h | h
        · exact absurd h.symm hkk
        · exact h
      have habs2 : dictGet (KafkaUtil.enrichStep acc key) k = Option.none := by
        rw [dictGet_enrichStep_ne acc key k hkk, habs]
      exact ih (KafkaUtil.enrichStep acc key) hmem2 hdef habs2

/-- The enrichment fold leaves keys outside the processed key set alone. -/
theorem dictGet_enrichFold_frame (keys : List String) (acc : PyDict) (k : String)
    (hmem : k ∉ keys) :
    dictGet (keys.foldl KafkaUtil.enrichStep acc) k = dictGet acc k := by
  induction keys generalizing acc with
  | nil => rfl
  | cons key rest ih =>
    have hne : key ≠ k := fun h => hmem (h ▸ List.mem_cons_self key rest)
    have hrest : k ∉ rest := fun h => hmem (List.mem_cons_of_mem key h)
    rw [List.foldl_cons, ih (KafkaUtil.enrichStep acc key) hrest,
        dictGet_enrichStep_ne acc key k hne]

/-- C8: `enrich_producer_config` returns a new mapping in which every key
of the producer-or-shared key set that is absent from the input and has an
entry in the static defaults table is bound to its default value; every
key present in the input keeps exactly its input value (defaults never
overwrite); keys outside the producer-or-shared key set are untouched.
The embedding is a pure function on the copied input, so the input mapping
itself is left unmodified. -/
theorem claim8_enrich (config : PyDict) (k : String) (v : PyVal) :
    (dictGet config k = some v →
      dictGet (KafkaUtil.enrich_producer_config config) k = some v) ∧
    (k ∈ KafkaUtil.producerKeys → dictGet config k = Option.none →
      dictGet KafkaUtil.Defaults k = some v →
      dictGet (KafkaUtil.enrich_producer_config config) k = some v) ∧
    (k ∉ KafkaUtil.producerKeys →
      dictGet (KafkaUtil.enrich_producer_config config) k = dictGet config k) := by
  refine ⟨?_, ?_, ?_⟩
  · intro h
    exact dictGet_enrichFold_preserved KafkaUtil.producerKeys config k v h
  · intro hmem habs hdef
    exact dictGet_enrichFold_fills k v KafkaUtil.producerKeys config hmem hdef habs
  · intro hmem
    exact dictGet_enrichFold_frame KafkaUtil.producerKeys config k hmem

/-- Witness for C8: on the input mapping with only `linger.ms` bound,
the absent producer key `acks` is filled from the defaults table while
the present key `linger.ms` keeps its input value. -/
theorem claim8_witness :
    dictGet (KafkaUtil.enrich_producer_config [("linger.ms", PyVal.int 100)]) "acks" =
      some (PyVal.int (-1)) ∧
    dictGet (KafkaUtil.enrich_producer_config [("linger.ms", PyVal.int 100)]) "linger.ms" =
      some (PyVal.int 100) :=
  ⟨(claim8_enrich [("linger.ms", PyVal.int 100)] "acks" (PyVal.int (-1))).2.1
      (by decide) rfl rfl,
   (claim8_enrich [("linger.ms", PyVal.int 100)] "linger.ms" (PyVal.int 100)).1 rfl⟩

/-- The `TaskUtil` invariant: at most one background thread has been
created, and if one has been, the remembered loop is that (permanently
running) background loop. -/
def taskInv (st : TaskState) : Prop :=
  st.createdThreads ≤ 1 ∧
  (st.createdThreads = 1 → ∃ l, st.eventLoop = some l ∧ st.bgLoops.contains l = true)

/-- One `create_task` call preserves the `TaskUtil` invariant: once a
background loop is remembered it is always found running, so the slow path
(the only place a thread is created) is unreachable afterwards. -/
theorem createTask_inv (st : TaskState) (ctx : CallCtx) (h : taskInv st) :
    taskInv (createTask st ctx).1 := by
  obtain ⟨h1, h2⟩ := h
  have hslow : st.createdThreads = 0 → taskInv (createTaskSlow st ctx).1 := by
    intro h0
    unfold createTaskSlow
    cases hcl : ctx.callerLoop with
    | some rl =>
      dsimp only
      constructor
      · show st.createdThreads ≤ 1
        omega
      · intro hc
        have hc2 : st.createdThreads = 1 := hc
        exact absurd hc2 (by omega)
    | none =>
      dsimp only
      constructor
      · show st.createdThreads + 1 ≤ 1
        omega
      · intro hcn
        refine ⟨ctx.freshLoop, rfl, ?_⟩
        show (st.bgLoops ++ [ctx.freshLoop]).contains ctx.freshLoop = true
        simp
  unfold createTask
  cases hev : st.eventLoop with
  | none =>
    have h0 : st.createdThreads = 0 := by
      rcases Nat.lt_or_ge st.createdThreads 1 with hlt | hge
      · omega
      · obtain ⟨l, hl, _⟩ := h2 (by omega)
        rw [hev] at hl
        cases hl
    exact hslow h0
  | some l =>
    by_cases hr : loopIsRunning st ctx l = true
    · simpa [hr] using ⟨h1, fun hc => hev ▸ h2 hc⟩
    · have h0 : st.createdThreads = 0 := by
        rcases Nat.lt_or_ge st.createdThreads 1 with hlt | hge
        · omega
        · obtain ⟨l2, hl2, hbg⟩ := h2 (by omega)
          rw [hev] at hl2
          cases hl2
          have hmem : l ∈ st.bgLoops := by simpa using hbg
          exact absurd (by simp [loopIsRunning, hmem]) hr
      simpa [hr] using hslow h0

/-- The invariant holds along any sequence of `create_task` calls. -/
theorem runCreateTasks_inv (ctxs : List CallCtx) (st : TaskState) (h : taskInv st) :
    taskInv (runCreateTasks st ctxs) := by
  induction ctxs generalizing st with
  | nil => exact h
  | cons ctx rest ih => exact ih (createTask st ctx).1 (createTask_inv st ctx h)

/-- C9 counterexample: the first submission (from a thread with running
loop 7) sets the remembered context to loop 7; loop 7 then stops, and the
next submission (from a thread with running loop 8) schedules its task
onto loop 8, not onto the remembered loop 7 — and replaces the remembered
context. -/
theorem claim9_counterexample :
    (createTask initTaskState ⟨[7], some 7, 99⟩).1.eventLoop = some 7 ∧
    (createTask initTaskState ⟨[7], some 7, 99⟩).2 = 7 ∧
    (createTask (createTask initTaskState ⟨[7], some 7, 99⟩).1 ⟨[8], some 8, 99⟩).2 = 8 ∧
    (createTask (createTask initTaskState ⟨[7], some 7, 99⟩).1 ⟨[8], some 8, 99⟩).1.eventLoop =
      some 8 := by
  refine ⟨rfl, rfl, rfl, rfl⟩

/-- C9 (amended): across any sequence of submissions at most one
background worker thread is ever created; and a submission that finds the
remembered context set *and still running* schedules its task onto that
same remembered context, leaving the state unchanged (the remembered
context is only replaced when it is no longer running). -/
theorem claim9_amended :
    (∀ ctxs : List CallCtx, (runCreateTasks initTaskState ctxs).createdThreads ≤ 1) ∧
    (∀ (st : TaskState) (ctx : CallCtx) (l : Nat),
      st.eventLoop = some l → loopIsRunning st ctx l = true →
      createTask st ctx = (st, l)) := by
  constructor
  · intro ctxs
    exact (runCreateTasks_inv ctxs initTaskState ⟨by decide, fun hc => absurd hc (by decide)⟩).1
  · intro st ctx l hev hr
    unfold createTask
    rw [hev]
    simp [hr]

/-- Witness for C9: two submissions with no running caller loop create a
single background thread; a submission that finds its remembered
background loop running reuses it unchanged. -/
theorem claim9_witness :
    (runCreateTasks initTaskState [⟨[], Option.none, 3⟩, ⟨[], Option.none, 4⟩]).createdThreads ≤ 1 ∧
    createTask ⟨some 5, 1, [5]⟩ ⟨[], Option.none, 9⟩ = (⟨some 5, 1, [5]⟩, 5) :=
  ⟨claim9_amended.1 [⟨[], Option.none, 3⟩, ⟨[], Option.none, 4⟩],
   claim9_amended.2 ⟨some 5, 1, [5]⟩ ⟨[], Option.none, 9⟩ 5 rfl rfl⟩
